import Mathlib

/-!
Shallow embedding of the Spotify streaming-history ETL script
(spotify_etl.py): a single-pass pipeline that loads a JSON export,
filters it to calendar year 2025, projects and cleans the records,
derives calendar and play-outcome features, and computes aggregate
tables.  JSON records are modelled as association lists of field names
to JSON values; pandas DataFrames are modelled as lists of typed rows;
a pandas NaN cell (absent key or JSON null) is modelled as Option.none;
exact rational arithmetic stands in for float arithmetic.  Fatal
Python exceptions are modelled with Except.
-/

set_option maxRecDepth 100000

deriving instance DecidableEq for Except

namespace SpotifyETL

/-- JSON scalar values as produced by json.load: null, booleans,
numbers (exact rationals standing in for Python ints and floats) and
strings. -/
inductive Value where
  | null
  | bool (b : Bool)
  | num (q : Rat)
  | str (s : String)
  deriving DecidableEq, Repr

/-- One raw JSON record: an association list of field names to values
(JSON objects have unique keys; lookup takes the first binding). -/
abbrev RawRecord := List (String × Value)

/-- Python dict.get: the value bound to a key, or none when absent. -/
def assocGet (r : RawRecord) (k : String) : Option Value :=
  (r.find? (fun p => p.1 == k)).map (fun p => p.2)

/-- Digit-string tail accepted by Python int(): digits with single
underscores allowed between digits. -/
def pyDigitsAux (acc : Nat) : List Char → Option Nat
  | [] => some acc
  | c :: cs =>
    if c.isDigit then pyDigitsAux (acc * 10 + (c.toNat - 48)) cs
    else if c = '_' then
      match cs with
      | d :: ds =>
        if d.isDigit then pyDigitsAux (acc * 10 + (d.toNat - 48)) ds else none
      | [] => none
    else none

/-- Nonempty digit string accepted by Python int() (leading digit, then
digits with single underscores between digits). -/
def pyDigits : List Char → Option Nat
  | [] => none
  | c :: cs => if c.isDigit then pyDigitsAux (c.toNat - 48) cs else none

/-- Whitespace stripping from both ends, as int() applies to its
argument. -/
def pyStrip (l : List Char) : List Char :=
  ((l.dropWhile Char.isWhitespace).reverse.dropWhile Char.isWhitespace).reverse

/-- Python int(s): optional surrounding whitespace, an optional sign,
then a nonempty digit string; any other shape raises ValueError,
modelled as none. -/
def pyInt (s : String) : Option Int :=
  match pyStrip s.toList with
  | '-' :: rest => (pyDigits rest).map (fun n => -(n : Int))
  | '+' :: rest => (pyDigits rest).map (fun n => (n : Int))
  | l => (pyDigits l).map (fun n => (n : Int))

/-- Python truthiness of an optional JSON value: None, null, False, 0
and the empty string are falsy. -/
def pyTruthy : Option Value → Bool
  | none => false
  | some Value.null => false
  | some (Value.bool b) => b
  | some (Value.num q) => q != 0
  | some (Value.str s) => s != ""

/-- Fatal errors of the pipeline run.  fileNotFound records the message
printed by the FileNotFoundError handler together with the process exit
status produced by the bare exit() call that follows it (Python exit()
with no argument raises SystemExit(None), which terminates the process
with status 0). -/
inductive PipeError where
  | fileNotFound (msg : String) (exitCode : Nat)
  | typeError (what : String)
  | valueError (what : String)
  | keyError (missing : List String)
  | parseError (what : String)
  deriving DecidableEq, Repr

/-- Message printed by the FileNotFoundError handler (line 20 of the
script). -/
def notFoundMsg : String :=
  "✗ Error: File \x27Streaming_History_Audio_2024-2025_1.json\x27 not found!"

/-- STEP 1 of the script: loading the JSON source.  The input is none
when the source file is missing, in which case the handler prints its
message and calls exit() (status 0); otherwise the parsed record list
is returned unchanged. -/
def loadStep : Option (List RawRecord) → Except PipeError (List RawRecord)
  | none => Except.error (PipeError.fileNotFound notFoundMsg 0)
  | some data => Except.ok data

/-- STEP 2 of the script, one record: the record is kept when its ts
field is truthy, is a string, and int(ts[:4]) equals the target year. -/
def keepYear (year : Int) (r : RawRecord) : Bool :=
  match assocGet r "ts" with
  | some (Value.str s) =>
    pyTruthy (assocGet r "ts") && (pyInt (String.mk (s.toList.take 4)) == some year)
  | _ => false

/-- A record whose ts field does not make the filter loop raise: either
ts is falsy (record skipped) or ts is a string whose first four
characters parse under int(). -/
def tsOk (r : RawRecord) : Bool :=
  !(pyTruthy (assocGet r "ts")) ||
    (match assocGet r "ts" with
     | some (Value.str s) => (pyInt (String.mk (s.toList.take 4))).isSome
     | _ => false)

/-- STEP 2 of the script: the 2025 filter loop (lines 26 to 32).  For
each record, a falsy ts skips the record; a truthy non-string ts makes
the slice ts[:4] raise TypeError; a truthy string ts whose first four
characters do not parse under int() raises ValueError; otherwise the
record is kept exactly when the parsed year equals the target. -/
def filterYear (year : Int) : List RawRecord → Except PipeError (List RawRecord)
  | [] => Except.ok []
  | r :: rs =>
    if pyTruthy (assocGet r "ts") then
      match assocGet r "ts" with
      | some (Value.str s) =>
        match pyInt (String.mk (s.toList.take 4)) with
        | none => Except.error (PipeError.valueError (String.mk (s.toList.take 4)))
        | some y =>
          match filterYear year rs with
          | Except.error e => Except.error e
          | Except.ok rest =>
            if y == year then Except.ok (r :: rest) else Except.ok rest
      | _ => Except.error (PipeError.typeError "ts")
    else filterYear year rs

/-- Keep-first deduplication, the semantics of drop_duplicates and of
pandas column-union ordering: an element is kept when it has not
appeared earlier in the list. -/
def dedupFirstAux {α : Type _} [DecidableEq α] (seen : List α) : List α → List α
  | [] => []
  | a :: as =>
    if a ∈ seen then dedupFirstAux seen as else a :: dedupFirstAux (a :: seen) as

/-- drop_duplicates keeping first occurrences. -/
def dedupFirst {α : Type _} [DecidableEq α] (l : List α) : List α :=
  dedupFirstAux [] l

/-- The twelve columns retained by STEP 3 (cols_to_keep, lines 43 to
47 of the script). -/
def colsToKeep : List String :=
  ["ts", "master_metadata_track_name", "master_metadata_album_artist_name",
   "master_metadata_album_album_name", "ms_played", "skipped", "shuffle",
   "offline", "incognito_mode", "platform", "conn_country", "reason_end"]

/-- Columns of the DataFrame built from a list of JSON records: the
union of the record keys in order of first appearance. -/
def columnsOf (l : List RawRecord) : List String :=
  dedupFirst ((l.map (fun r => r.map (fun p => p.1))).flatten)

/-- One row of the projected DataFrame (STEP 3).  Fields already carry
the canonical names introduced by the rename at line 87 (the rename
changes only the three metadata column names, not the cell values); a
cell is none when the key was absent from the record or bound to JSON
null, both of which pandas stores as NaN. -/
structure Row where
  ts : Option Value
  track_name : Option Value
  artist_name : Option Value
  album_name : Option Value
  ms_played : Option Value
  skipped : Option Value
  shuffle : Option Value
  offline : Option Value
  incognito_mode : Option Value
  platform : Option Value
  conn_country : Option Value
  reason_end : Option Value
  deriving DecidableEq, Repr

/-- Cell of the DataFrame at one record and column: JSON null becomes
NaN, modelled as none. -/
def cell (r : RawRecord) (k : String) : Option Value :=
  match assocGet r k with
  | some Value.null => none
  | v => v

/-- Projection of one record to the twelve retained columns. -/
def toRow (r : RawRecord) : Row where
  ts := cell r "ts"
  track_name := cell r "master_metadata_track_name"
  artist_name := cell r "master_metadata_album_artist_name"
  album_name := cell r "master_metadata_album_album_name"
  ms_played := cell r "ms_played"
  skipped := cell r "skipped"
  shuffle := cell r "shuffle"
  offline := cell r "offline"
  incognito_mode := cell r "incognito_mode"
  platform := cell r "platform"
  conn_country := cell r "conn_country"
  reason_end := cell r "reason_end"

/-- STEP 3, line 49: df[cols_to_keep] raises KeyError when any of the
twelve columns is absent from the DataFrame (in particular when the
filtered record list is empty, since the DataFrame then has no columns
at all); otherwise every record is projected to the twelve fields. -/
def projectCols (l : List RawRecord) : Except PipeError (List Row) :=
  let missing := colsToKeep.filter (fun c => !((columnsOf l).contains c))
  if missing.isEmpty then Except.ok (l.map toRow)
  else Except.error (PipeError.keyError missing)

/-- pandas notna on one cell. -/
def notna (v : Option Value) : Bool := v.isSome

/-- STEP 4 (lines 56 to 61): drop rows whose track name or artist name
cell is NaN (two successive notna filters), then drop exact duplicate
rows keeping first occurrences. -/
def clean (l : List Row) : List Row :=
  dedupFirst ((l.filter (fun r => notna r.track_name)).filter
    (fun r => notna r.artist_name))

/-- Parsed timestamp components (pd.to_datetime on one cell). -/
structure DT where
  year : Nat
  month : Nat
  day : Nat
  hour : Nat
  minute : Nat
  second : Nat
  deriving DecidableEq, Repr

/-- Gregorian leap year. -/
def isLeap (y : Nat) : Bool :=
  (y % 4 == 0 && y % 100 != 0) || y % 400 == 0

/-- Length of a month. -/
def daysInMonth (y m : Nat) : Nat :=
  if m = 2 then (if isLeap y then 29 else 28)
  else if m = 4 ∨ m = 6 ∨ m = 9 ∨ m = 11 then 30
  else 31

/-- Two decimal digits. -/
def d2 (a b : Char) : Nat :=
  (a.toNat - 48) * 10 + (b.toNat - 48)

/-- Strict parse of the source timestamp format YYYY-MM-DDTHH:MM:SSZ
(the ISO-8601 Zulu form produced by the Spotify export and accepted by
pd.to_datetime); any other shape or an out-of-range calendar component
fails. -/
def parseTs (s : String) : Option DT :=
  match s.toList with
  | [y1, y2, y3, y4, '-', m1, m2, '-', a1, a2, 'T',
     h1, h2, ':', n1, n2, ':', c1, c2, 'Z'] =>
    if [y1, y2, y3, y4, m1, m2, a1, a2, h1, h2, n1, n2, c1, c2].all Char.isDigit then
      let y := d2 y1 y2 * 100 + d2 y3 y4
      let mo := d2 m1 m2
      let da := d2 a1 a2
      let h := d2 h1 h2
      let mi := d2 n1 n2
      let se := d2 c1 c2
      if 1 ≤ mo ∧ mo ≤ 12 ∧ 1 ≤ da ∧ da ≤ daysInMonth y mo ∧
          h ≤ 23 ∧ mi ≤ 59 ∧ se ≤ 59 then
        some ⟨y, mo, da, h, mi, se⟩
      else none
    else none
  | _ => none

/-- Day of the year (1-based). -/
def dayOfYear (y m d : Nat) : Nat :=
  (List.range (m - 1)).foldl (fun acc i => acc + daysInMonth y (i + 1)) 0 + d

/-- Days elapsed since 0001-01-01 in the proleptic Gregorian calendar
(that date itself maps to 0 and fell on a Monday). -/
def daysFromYearOne (y m d : Nat) : Nat :=
  365 * (y - 1) + (y - 1) / 4 - (y - 1) / 100 + (y - 1) / 400 + dayOfYear y m d - 1

/-- pandas dt.dayofweek: Monday is 0 and Sunday is 6. -/
def dowNum (t : DT) : Nat :=
  daysFromYearOne t.year t.month t.day % 7

/-- The day_order list of the script (line 159), which is also the
Monday-first order of pandas day names. -/
def dayOrderList : List String :=
  ["Monday", "Tuesday", "Wednesday", "Thursday", "Friday", "Saturday", "Sunday"]

/-- dt.strftime of %A, via the weekday number. -/
def dayNameOf (n : Nat) : String :=
  dayOrderList.getD n ""

/-- Round half to even, the rounding mode of numpy and hence of the
pandas Series.round used throughout the script. -/
def roundHalfEven (q : Rat) : Int :=
  if q - ⌊q⌋ < 1 / 2 then ⌊q⌋
  else if 1 / 2 < q - ⌊q⌋ then ⌊q⌋ + 1
  else if 2 ∣ ⌊q⌋ then ⌊q⌋ else ⌊q⌋ + 1

/-- Series.round(2). -/
def round2 (q : Rat) : Rat :=
  (roundHalfEven (q * 100) : Rat) / 100

/-- A fully enriched event (STEP 5): the twelve projected cells plus
the derived calendar features and play-outcome flags of lines 69 to
84.  ms_played is kept as the parsed number; the skipped flag must be
a genuine boolean for the whole set, since otherwise the column is of
object dtype and the astype(int) conversions of lines 83 to 84 raise.
The iso week number is not modelled (no claim mentions it). -/
structure Enriched where
  ts : String
  track_name : Option Value
  artist_name : Option Value
  album_name : Option Value
  ms_played : Option Rat
  skipped : Bool
  shuffle : Option Value
  offline : Option Value
  incognito_mode : Option Value
  platform : Option Value
  conn_country : Option Value
  reason_end : Option Value
  date : Nat × Nat × Nat
  hour : Nat
  day_of_week_num : Nat
  day_name : String
  month : Nat
  minutes_played : Option Rat
  was_completed : Int
  was_skipped : Int
  deriving DecidableEq, Repr

/-- STEP 5 on one row: parse the timestamp (fatal on failure, line 69),
derive the calendar features, convert milliseconds to minutes (line
80, NaN propagating silently when ms_played is missing) and derive the
complementary completion flags of lines 83 to 84 (fatal when the
skipped cell is not a boolean, since the column-wide astype(int) then
raises). -/
def enrichRow (r : Row) : Except PipeError Enriched :=
  match r.ts with
  | some (Value.str s) =>
    match parseTs s with
    | none => Except.error (PipeError.parseError s)
    | some t =>
      match r.skipped with
      | some (Value.bool b) =>
        match r.ms_played with
        | some (Value.str w) => Except.error (PipeError.typeError w)
        | ms =>
          let m : Option Rat := match ms with
            | some (Value.num q) => some (q / 60000)
            | some (Value.bool c) => some ((if c then 1 else 0) / 60000)
            | _ => none
          Except.ok
            { ts := s
              track_name := r.track_name
              artist_name := r.artist_name
              album_name := r.album_name
              ms_played := match ms with
                | some (Value.num q) => some q
                | some (Value.bool c) => some (if c then 1 else 0)
                | _ => none
              skipped := b
              shuffle := r.shuffle
              offline := r.offline
              incognito_mode := r.incognito_mode
              platform := r.platform
              conn_country := r.conn_country
              reason_end := r.reason_end
              date := (t.year, t.month, t.day)
              hour := t.hour
              day_of_week_num := dowNum t
              day_name := dayNameOf (dowNum t)
              month := t.month
              minutes_played := m
              was_completed := if b then 0 else 1
              was_skipped := if b then 1 else 0 }
      | _ => Except.error (PipeError.typeError "skipped")
  | _ => Except.error (PipeError.parseError "ts")

/-- STEP 5 over the whole cleaned set; the first failing row aborts the
run. -/
def enrichAll : List Row → Except PipeError (List Enriched)
  | [] => Except.ok []
  | r :: rs =>
    match enrichRow r with
    | Except.error e => Except.error e
    | Except.ok e =>
      match enrichAll rs with
      | Except.error e2 => Except.error e2
      | Except.ok es => Except.ok (e :: es)

/-- STEPS 1 to 5 composed: the enriched event set produced by the run
(the set later exported as raw_data_2025.csv), or the fatal error that
aborted the run.  The input is none when the source file is missing. -/
def enrichedOf (src : Option (List RawRecord)) : Except PipeError (List Enriched) :=
  match loadStep src with
  | Except.error e => Except.error e
  | Except.ok data =>
    match filterYear 2025 data with
    | Except.error e => Except.error e
    | Except.ok flt =>
      match projectCols flt with
      | Except.error e => Except.error e
      | Except.ok rows => enrichAll (clean rows)

/-- nunique of a column within a group: pandas counts distinct
non-null values. -/
def nunique (g : List (Option Value)) : Nat :=
  (dedupFirst (g.filterMap id)).length

/-- pandas sum over a numeric column: NaN cells are skipped. -/
def ratSum (g : List (Option Rat)) : Rat :=
  (g.filterMap id).sum

/-- One row of TABLE 1 (daily_summary, lines 104 to 114). -/
structure DayRow where
  date : Nat × Nat × Nat
  total_minutes : Rat
  tracks_played : Nat
  skips : Int
  completions : Int
  unique_artists : Nat
  skip_rate : Rat
  hours_played : Rat
  deriving DecidableEq, Repr

/-- Sort key giving the calendar order on dates. -/
def dateKey : Nat × Nat × Nat → Nat
  | (y, m, d) => y * 10000 + m * 100 + d

/-- TABLE 1 (lines 104 to 114): group by calendar date (groupby sorts
the keys ascending; date cells are never NaN because every enriched
row carries a parsed timestamp), aggregate, derive skip_rate and
hours_played, then sort_values by date. -/
def dailySummary (l : List Enriched) : List DayRow :=
  let keys := List.insertionSort (fun a b => dateKey a ≤ dateKey b)
    (dedupFirst (l.map (fun e => e.date)))
  let rows := keys.map (fun k =>
    let grp := l.filter (fun e => e.date == k)
    let tm : Rat := ratSum (grp.map (fun e => e.minutes_played))
    let tp : Nat := grp.countP (fun e => notna e.track_name)
    let sk : Int := (grp.map (fun e => e.was_skipped)).sum
    { date := k
      total_minutes := tm
      tracks_played := tp
      skips := sk
      completions := (grp.map (fun e => e.was_completed)).sum
      unique_artists := nunique (grp.map (fun e => e.artist_name))
      skip_rate := round2 ((sk : Rat) / (tp : Rat) * 100)
      hours_played := round2 (tm / 60) })
  List.insertionSort (fun a b => dateKey a.date ≤ dateKey b.date) rows

/-- One row of TABLE 5 (weekly_pattern, lines 158 to 170), including
the helper day_order column added at line 168. -/
structure WeekRow where
  day_name : String
  total_minutes : Rat
  track_count : Nat
  skips : Int
  unique_artists : Nat
  skip_rate : Rat
  day_order : Nat
  deriving DecidableEq, Repr

/-- TABLE 5 (lines 158 to 170): group by day name (groupby sorts the
seven possible keys alphabetically; the day_name column is never NaN),
aggregate, derive skip_rate, attach the explicit weekday index via
day_order.index, then sort_values by that index. -/
def weeklyPattern (l : List Enriched) : List WeekRow :=
  let keys := List.insertionSort (fun a b : String => a ≤ b)
    (dedupFirst (l.map (fun e => e.day_name)))
  let rows := keys.map (fun k =>
    let grp := l.filter (fun e => e.day_name == k)
    let tc : Nat := grp.countP (fun e => notna e.track_name)
    let sk : Int := (grp.map (fun e => e.was_skipped)).sum
    { day_name := k
      total_minutes := ratSum (grp.map (fun e => e.minutes_played))
      track_count := tc
      skips := sk
      unique_artists := nunique (grp.map (fun e => e.artist_name))
      skip_rate := round2 ((sk : Rat) / (tc : Rat) * 100)
      day_order := dayOrderList.indexOf k })
  List.insertionSort (fun a b => a.day_order ≤ b.day_order) rows

/-- One row of TABLE 7 (platform_dist, lines 191 to 197). -/
structure PlatRow where
  platform : Value
  total_minutes : Rat
  track_count : Nat
  percentage : Rat
  deriving DecidableEq, Repr

/-- Per-platform track count: the size of the platform group counted
through the non-null track_name cells, as count aggregates do. -/
def platCount (l : List Enriched) (k : Value) : Nat :=
  (l.filter (fun e => e.platform == some k)).countP (fun e => notna e.track_name)

/-- Group keys of TABLE 7: the distinct non-NaN platform values (rows
whose platform cell is NaN belong to no group and are silently dropped
by groupby; the later sort by track_count makes the groupby key order
immaterial for the table contents). -/
def platKeys (l : List Enriched) : List Value :=
  dedupFirst (l.filterMap (fun e => e.platform))

/-- The percentage denominator of line 196: the sum of the track_count
column of the table itself, not the size of the enriched set. -/
def platTotal (l : List Enriched) : Nat :=
  ((platKeys l).map (fun k => platCount l k)).sum

/-- One row of TABLE 7 for a given platform group. -/
def platRowOf (l : List Enriched) (k : Value) : PlatRow :=
  { platform := k
    total_minutes := ratSum ((l.filter (fun e => e.platform == some k)).map
      (fun e => e.minutes_played))
    track_count := platCount l k
    percentage := round2 ((platCount l k : Rat) / (platTotal l : Rat) * 100) }

/-- TABLE 7 (lines 191 to 197): group by platform, aggregate, derive
the percentage column, then sort by descending track_count. -/
def platformDist (l : List Enriched) : List PlatRow :=
  List.insertionSort (fun a b => b.track_count ≤ a.track_count)
    ((platKeys l).map (platRowOf l))

/-- Sum of the track_count column of the platform table. -/
def sumTrackCount (t : List PlatRow) : Nat :=
  (t.map (fun r => r.track_count)).sum

/-- A raw record with all twelve retained keys present. -/
def mkRec (ts track artist album : String) (ms : Rat) (sk : Bool)
    (plat : String) : RawRecord :=
  [("ts", Value.str ts),
   ("master_metadata_track_name", Value.str track),
   ("master_metadata_album_artist_name", Value.str artist),
   ("master_metadata_album_album_name", Value.str album),
   ("ms_played", Value.num ms),
   ("skipped", Value.bool sk),
   ("shuffle", Value.bool false),
   ("offline", Value.bool false),
   ("incognito_mode", Value.bool false),
   ("platform", Value.str plat),
   ("conn_country", Value.str "PK"),
   ("reason_end", Value.str "trackdone")]

/-- A record whose timestamp is truthy but whose first four characters
do not parse under int(). -/
def badTsRec : RawRecord :=
  [("ts", Value.str "abcd-01-01T00:00:00Z")]

/-- Three plays on 2025-01-01 by one artist, 3.0, 2.0 and 0.0 minutes,
none skipped: the concrete scenario of the daily-summary claim. -/
def dayScenario : List RawRecord :=
  [mkRec "2025-01-01T09:00:00Z" "t1" "A" "alb" 180000 false "ios",
   mkRec "2025-01-01T10:00:00Z" "t2" "A" "alb" 120000 false "ios",
   mkRec "2025-01-01T11:00:00Z" "t3" "A" "alb" 0 false "ios"]

/-- Two 2025 plays, the second lacking the platform key (its platform
cell is NaN, so groupby drops it from the platform table). -/
def platScenario : List RawRecord :=
  [mkRec "2025-01-03T09:00:00Z" "t1" "A" "alb" 60000 false "ios",
   [("ts", Value.str "2025-01-03T10:00:00Z"),
    ("master_metadata_track_name", Value.str "t2"),
    ("master_metadata_album_artist_name", Value.str "A"),
    ("master_metadata_album_album_name", Value.str "alb"),
    ("ms_played", Value.num 60000),
    ("skipped", Value.bool false),
    ("shuffle", Value.bool false),
    ("offline", Value.bool false),
    ("incognito_mode", Value.bool false),
    ("conn_country", Value.str "PK"),
    ("reason_end", Value.str "trackdone")]]

/-- A source whose only record is from 2024, so the 2025 filter leaves
nothing. -/
def emptyYearScenario : List RawRecord :=
  [mkRec "2024-06-01T09:00:00Z" "t1" "A" "alb" 60000 false "ios"]

/-- Two 2025 records, neither carrying the skipped key, so the skipped
column is absent from the DataFrame. -/
def noSkipScenario : List RawRecord :=
  [[("ts", Value.str "2025-01-03T09:00:00Z"),
    ("master_metadata_track_name", Value.str "t1"),
    ("master_metadata_album_artist_name", Value.str "A"),
    ("master_metadata_album_album_name", Value.str "alb"),
    ("ms_played", Value.num 60000),
    ("shuffle", Value.bool false),
    ("offline", Value.bool false),
    ("incognito_mode", Value.bool false),
    ("platform", Value.str "ios"),
    ("conn_country", Value.str "PK"),
    ("reason_end", Value.str "trackdone")],
   [("ts", Value.str "2025-01-04T09:00:00Z"),
    ("master_metadata_track_name", Value.str "t2"),
    ("master_metadata_album_artist_name", Value.str "A"),
    ("master_metadata_album_album_name", Value.str "alb"),
    ("ms_played", Value.num 30000),
    ("shuffle", Value.bool false),
    ("offline", Value.bool false),
    ("incognito_mode", Value.bool false),
    ("platform", Value.str "ios"),
    ("conn_country", Value.str "PK"),
    ("reason_end", Value.str "trackdone")]]

/-- The projected row of the first dayScenario record, used to witness
the flag-complement theorem on a concrete input. -/
def rowSample : Row :=
  toRow (mkRec "2025-01-01T09:00:00Z" "t1" "A" "alb" 180000 false "ios")

/-- A row whose artist cell is NaN, used to witness the normalizer
claims. -/
def rowNoArtist : Row :=
  { ts := some (Value.str "2025-01-01T09:00:00Z")
    track_name := some (Value.str "t9")
    artist_name := none
    album_name := some (Value.str "alb")
    ms_played := some (Value.num 60000)
    skipped := some (Value.bool false)
    shuffle := some (Value.bool false)
    offline := some (Value.bool false)
    incognito_mode := some (Value.bool false)
    platform := some (Value.str "ios")
    conn_country := some (Value.str "PK")
    reason_end := some (Value.str "trackdone") }

/-- Exit status carried by a file-not-found abort, when the run ended
that way. -/
def exitCodeOf {α : Type _} : Except PipeError α → Option Nat
  | Except.error (PipeError.fileNotFound _ c) => some c
  | _ => none

/-- The enrichment of rowSample, written out.  The minutes value is
kept in the shape the enrichment step produces (180000 / 60000, which
equals 3) so that the equation with enrichRow holds by rfl. -/
def enrSample : Enriched :=
  { ts := "2025-01-01T09:00:00Z"
    track_name := some (Value.str "t1")
    artist_name := some (Value.str "A")
    album_name := some (Value.str "alb")
    ms_played := some 180000
    skipped := false
    shuffle := some (Value.bool false)
    offline := some (Value.bool false)
    incognito_mode := some (Value.bool false)
    platform := some (Value.str "ios")
    conn_country := some (Value.str "PK")
    reason_end := some (Value.str "trackdone")
    date := (2025, 1, 1)
    hour := 9
    day_of_week_num := 2
    day_name := "Wednesday"
    month := 1
    minutes_played := some (180000 / 60000)
    was_completed := 1
    was_skipped := 0 }

/-- The daily-summary row the spec predicts for dayScenario. -/
def dayRowExpected : DayRow :=
  { date := (2025, 1, 1)
    total_minutes := 5
    tracks_played := 3
    skips := 0
    completions := 3
    unique_artists := 1
    skip_rate := 0
    hours_played := 0.08 }

/-- The enrichment of the second dayScenario record (minutes kept in
the produced shape; 120000 / 60000 equals 2). -/
def enrSample2 : Enriched :=
  { ts := "2025-01-01T10:00:00Z"
    track_name := some (Value.str "t2")
    artist_name := some (Value.str "A")
    album_name := some (Value.str "alb")
    ms_played := some 120000
    skipped := false
    shuffle := some (Value.bool false)
    offline := some (Value.bool false)
    incognito_mode := some (Value.bool false)
    platform := some (Value.str "ios")
    conn_country := some (Value.str "PK")
    reason_end := some (Value.str "trackdone")
    date := (2025, 1, 1)
    hour := 10
    day_of_week_num := 2
    day_name := "Wednesday"
    month := 1
    minutes_played := some (120000 / 60000)
    was_completed := 1
    was_skipped := 0 }

/-- The enrichment of the third dayScenario record (0 / 60000 equals
0 minutes). -/
def enrSample3 : Enriched :=
  { ts := "2025-01-01T11:00:00Z"
    track_name := some (Value.str "t3")
    artist_name := some (Value.str "A")
    album_name := some (Value.str "alb")
    ms_played := some 0
    skipped := false
    shuffle := some (Value.bool false)
    offline := some (Value.bool false)
    incognito_mode := some (Value.bool false)
    platform := some (Value.str "ios")
    conn_country := some (Value.str "PK")
    reason_end := some (Value.str "trackdone")
    date := (2025, 1, 1)
    hour := 11
    day_of_week_num := 2
    day_name := "Wednesday"
    month := 1
    minutes_played := some (0 / 60000)
    was_completed := 1
    was_skipped := 0 }

/-- The enriched event set the pipeline produces from dayScenario. -/
def dayEnriched : List Enriched :=
  [enrSample, enrSample2, enrSample3]

/-- A mixed source: the three 2025 plays together with a record with
no ts key, a 2024 record and a record with an empty ts. -/
def mixedScenario : List RawRecord :=
  dayScenario ++
    [[("master_metadata_track_name", Value.str "t4")],
     mkRec "2024-06-01T09:00:00Z" "t5" "B" "alb" 60000 false "ios",
     [("ts", Value.str "")]]

/-! Helper lemmas about keep-first deduplication. -/

theorem mem_dedupFirstAux {α : Type _} [DecidableEq α] (seen : List α) (l : List α)
    (x : α) : x ∈ dedupFirstAux seen l ↔ x ∈ l ∧ x ∉ seen := by
  induction l generalizing seen with
  | nil => simp [dedupFirstAux]
  | cons a as ih =>
    by_cases h : a ∈ seen <;> by_cases hxa : x = a <;>
      simp_all [dedupFirstAux, ih]

theorem nodup_dedupFirstAux {α : Type _} [DecidableEq α] (seen : List α)
    (l : List α) : (dedupFirstAux seen l).Nodup := by
  induction l generalizing seen with
  | nil => simp [dedupFirstAux]
  | cons a as ih =>
    by_cases h : a ∈ seen
    · simpa [dedupFirstAux, h] using ih seen
    · simp only [dedupFirstAux, h, if_false, List.nodup_cons]
      refine ⟨fun hmem => ?_, ih (a :: seen)⟩
      rw [mem_dedupFirstAux] at hmem
      exact hmem.2 (List.mem_cons_self a seen)

theorem dedupFirstAux_eq_self {α : Type _} [DecidableEq α] (seen : List α)
    (l : List α) (hn : l.Nodup) (hs : ∀ x ∈ l, x ∉ seen) :
    dedupFirstAux seen l = l := by
  induction l generalizing seen with
  | nil => rfl
  | cons a as ih =>
    have ha : a ∉ seen := hs a (List.mem_cons_self a as)
    rw [List.nodup_cons] at hn
    simp only [dedupFirstAux, ha, if_false, List.cons.injEq, true_and]
    exact ih (a :: seen) hn.2 (fun x hx => by
      simp only [List.mem_cons, not_or]
      exact ⟨fun he => hn.1 (he ▸ hx), hs x (List.mem_cons_of_mem a hx)⟩)

theorem mem_dedupFirst {α : Type _} [DecidableEq α] {l : List α} {x : α} :
    x ∈ dedupFirst l ↔ x ∈ l := by
  simp [dedupFirst, mem_dedupFirstAux]

theorem nodup_dedupFirst {α : Type _} [DecidableEq α] (l : List α) :
    (dedupFirst l).Nodup :=
  nodup_dedupFirstAux [] l

theorem dedupFirst_of_nodup {α : Type _} [DecidableEq α] {l : List α}
    (h : l.Nodup) : dedupFirst l = l :=
  dedupFirstAux_eq_self [] l h (fun x _ hx => List.not_mem_nil x hx)

theorem dedupFirst_idem {α : Type _} [DecidableEq α] (l : List α) :
    dedupFirst (dedupFirst l) = dedupFirst l :=
  dedupFirst_of_nodup (nodup_dedupFirst l)

/-- Every row kept by STEP 4 satisfies both notna filters. -/
theorem mem_clean {l : List Row} {r : Row} (h : r ∈ clean l) :
    r ∈ l ∧ notna r.track_name = true ∧ notna r.artist_name = true := by
  unfold clean at h
  rw [mem_dedupFirst, List.mem_filter] at h
  rw [List.mem_filter] at h
  exact ⟨h.1.1, h.1.2, h.2⟩

/-- C7.  The Normalizer is idempotent: the cleaning stage of STEP 4
(missing-name rejection followed by keep-first duplicate removal,
acting on already-projected rows, on which the column projection is
the identity; the rename is excluded, as in the claim) applied to its
own output returns that output unchanged, for every input collection. -/
theorem c7_normalizer_idempotent (l : List Row) : clean (clean l) = clean l := by
  have h1 : (clean l).filter (fun r => notna r.track_name) = clean l :=
    List.filter_eq_self.mpr (fun a ha => (mem_clean ha).2.1)
  have h2 : (clean l).filter (fun r => notna r.artist_name) = clean l :=
    List.filter_eq_self.mpr (fun a ha => (mem_clean ha).2.2)
  show dedupFirst (((clean l).filter _).filter _) = clean l
  rw [h1, h2]
  exact dedupFirst_idem _

/-- What a successful enrichment says about its row: the name cells
pass through unchanged and the completion flags are the two casts of a
genuine boolean skipped cell. -/
theorem enrichRow_spec {r : Row} {e : Enriched} (h : enrichRow r = Except.ok e) :
    e.track_name = r.track_name ∧ e.artist_name = r.artist_name ∧
      ∃ b, r.skipped = some (Value.bool b) ∧
        e.was_completed = (if b then 0 else 1) ∧
        e.was_skipped = (if b then 1 else 0) := by
  unfold enrichRow at h
  split at h <;> try exact Except.noConfusion h
  split at h <;> try exact Except.noConfusion h
  split at h <;> try exact Except.noConfusion h
  rename_i b hb
  split at h <;> try exact Except.noConfusion h
  rw [Except.ok.injEq] at h
  subst h
  exact ⟨rfl, rfl, b, hb, rfl, rfl⟩

/-- Every event of a successful enrichment comes from some row of the
input. -/
theorem enrichAll_mem {rows : List Row} {es : List Enriched}
    (h : enrichAll rows = Except.ok es) (e : Enriched) (he : e ∈ es) :
    ∃ r, r ∈ rows ∧ enrichRow r = Except.ok e := by
  induction rows generalizing es with
  | nil =>
    unfold enrichAll at h
    rw [Except.ok.injEq] at h
    subst h
    exact absurd he (List.not_mem_nil e)
  | cons r rs ih =>
    unfold enrichAll at h
    split at h <;> try exact Except.noConfusion h
    rename_i e1 h1
    split at h <;> try exact Except.noConfusion h
    rename_i es1 h2
    rw [Except.ok.injEq] at h
    subst h
    rcases List.mem_cons.mp he with he1 | he2
    · exact ⟨r, List.mem_cons_self r rs, he1 ▸ h1⟩
    · obtain ⟨r2, hr2, hok⟩ := ih h2 he2
      exact ⟨r2, List.mem_cons_of_mem r hr2, hok⟩

/-- C2.  For every Enriched Event produced from a row whose skipped
flag is a present boolean (the only way enrichment succeeds), the
derived flags satisfy was_completed + was_skipped = 1, with
was_completed = 1 exactly when the flag is false and was_skipped = 1
exactly when it is true. -/
theorem c2_flags_complementary (r : Row) (e : Enriched)
    (h : enrichRow r = Except.ok e) :
    e.was_completed + e.was_skipped = 1 ∧
      (e.was_completed = 1 ↔ r.skipped = some (Value.bool false)) ∧
      (e.was_skipped = 1 ↔ r.skipped = some (Value.bool true)) := by
  obtain ⟨-, -, b, hb, hc, hs⟩ := enrichRow_spec h
  cases b <;> simp [hb, hc, hs]

/-- C2 witness: the concrete sample row enriches to enrSample, whose
flags are complementary. -/
theorem c2_witness : enrSample.was_completed + enrSample.was_skipped = 1 :=
  (c2_flags_complementary rowSample enrSample rfl).1

/-- C6.  Normalizer post-condition: every row surviving STEP 4 has
non-missing track and artist name cells; a row with a missing artist
name survives into no output (it is absent from the cleaned set, hence
from every aggregate table computed from it), and every event of the
exported enriched set has non-missing track and artist names. -/
theorem c6_normalizer_postcondition (l : List Row) (r : Row) (es : List Enriched)
    (hes : enrichAll (clean l) = Except.ok es) :
    (r ∈ clean l → notna r.track_name = true ∧ notna r.artist_name = true) ∧
      (notna r.artist_name = false → r ∉ clean l) ∧
      es.all (fun e => notna e.track_name && notna e.artist_name) = true := by
  refine ⟨fun h => ⟨(mem_clean h).2.1, (mem_clean h).2.2⟩, ?_, ?_⟩
  · intro hna h
    rw [(mem_clean h).2.2] at hna
    exact Bool.noConfusion hna
  · rw [List.all_eq_true]
    intro e he
    obtain ⟨rr, hrr, hok⟩ := enrichAll_mem hes e he
    obtain ⟨ht, ha, -⟩ := enrichRow_spec hok
    rw [Bool.and_eq_true, ht, ha]
    exact ⟨(mem_clean hrr).2.1, (mem_clean hrr).2.2⟩

/-- C6 witness: on the concrete two-row set, the artist-missing row is
dropped and the exported enriched set has both names present. -/
theorem c6_witness :
    rowNoArtist ∉ clean [rowSample, rowNoArtist] ∧
      ([enrSample].all (fun e => notna e.track_name && notna e.artist_name)) = true :=
  ⟨(c6_normalizer_postcondition [rowSample, rowNoArtist] rowNoArtist [enrSample]
      rfl).2.1 (by decide),
   (c6_normalizer_postcondition [rowSample, rowNoArtist] rowNoArtist [enrSample]
      rfl).2.2⟩

/-- Unfolding of the pipeline on a present source. -/
theorem enrichedOf_some (data : List RawRecord) :
    enrichedOf (some data) =
      match filterYear 2025 data with
      | Except.error e => Except.error e
      | Except.ok flt =>
        match projectCols flt with
        | Except.error e => Except.error e
        | Except.ok rows => enrichAll (clean rows) := rfl

/-- C1 (counterexample).  A record whose timestamp is truthy but whose
first four characters do not parse under int() makes the filter loop
raise ValueError instead of excluding the record: the claimed result
Except.ok [] is not produced. -/
theorem c1_counterexample :
    filterYear 2025 [badTsRec] = Except.error (PipeError.valueError "abcd") := by
  decide

/-- C1 (amended).  When every record has a well-behaved timestamp
(falsy, or a string whose leading four characters parse under int()),
the filter returns exactly the in-order subset of records whose
timestamp is truthy and parses to the target year; records with a
missing, null, empty or otherwise falsy timestamp are excluded.  A
record outside this hypothesis instead aborts the run with an
exception, as the counterexample shows. -/
theorem c1_year_filter_amended (year : Int) (l : List RawRecord)
    (h : ∀ r ∈ l, tsOk r = true) :
    filterYear year l = Except.ok (l.filter (keepYear year)) := by
  induction l with
  | nil => rfl
  | cons r rs ih =>
    have hr : tsOk r = true := h r (List.mem_cons_self r rs)
    have ihh := ih (fun x hx => h x (List.mem_cons_of_mem r hx))
    unfold tsOk at hr
    simp only [filterYear, List.filter_cons, keepYear]
    obtain hv | ⟨v, hv⟩ := Option.eq_none_or_eq_some (assocGet r "ts")
    · simp only [hv]
      simp [pyTruthy, ihh]
    · simp only [hv] at hr ⊢
      cases v with
      | null => simp [pyTruthy, ihh]
      | bool b =>
        simp only [pyTruthy, Bool.or_false] at hr
        rw [Bool.not_eq_true'] at hr
        simp [pyTruthy, hr, ihh]
      | num q =>
        simp only [pyTruthy, Bool.or_false] at hr
        rw [Bool.not_eq_true'] at hr
        simp [pyTruthy, hr, ihh]
      | str s =>
        simp only [pyTruthy] at hr
        by_cases hs : (s != "") = true
        · rw [hs, Bool.not_true, Bool.false_or] at hr
          obtain ⟨y, hy⟩ := Option.isSome_iff_exists.mp hr
          simp only [String.toList] at hy
          by_cases hyy : y = year
          · subst hyy
            simp [pyTruthy, hs, hy, ihh]
          · simp [pyTruthy, hs, hy, ihh, hyy]
        · rw [Bool.not_eq_true] at hs
          simp [pyTruthy, hs, ihh]

/-- C1 (witness): on the mixed scenario every timestamp is well
behaved, and the filter keeps exactly the three 2025 records. -/
theorem c1_witness :
    filterYear 2025 mixedScenario =
      Except.ok (mixedScenario.filter (keepYear 2025)) :=
  c1_year_filter_amended 2025 mixedScenario (by decide)

/-- C4 (counterexample).  When the source file is missing the run
aborts through the FileNotFoundError handler, and the process exit
status is 0, not non-zero: the handler ends with a bare exit(), which
raises SystemExit(None) and terminates the interpreter successfully. -/
theorem c4_counterexample : exitCodeOf (enrichedOf none) = some 0 := rfl

/-- C4 (amended).  When the source file is missing the pipeline aborts
immediately with the specific user-visible message and performs no
processing (no stage after the load runs), but it terminates with exit
status 0 rather than a non-zero one; a present source is passed to the
rest of the pipeline unchanged. -/
theorem c4_load_abort :
    enrichedOf none = Except.error (PipeError.fileNotFound notFoundMsg 0) ∧
      (∀ data, loadStep (some data) = Except.ok data) :=
  ⟨rfl, fun _ => rfl⟩

/-- C5 (counterexample).  A source whose records all lie outside 2025
does not complete with a NaN average-daily-minutes KPI: the run dies
at the column projection, because the DataFrame built from an empty
record list has no columns and df[cols_to_keep] raises KeyError. -/
theorem c5_counterexample :
    enrichedOf (some emptyYearScenario) =
      Except.error (PipeError.keyError colsToKeep) := by
  decide

/-- C5 (amended).  Whenever the 2025 filter leaves no records, the
pipeline does not complete and produces no KPI: the DataFrame built
from the empty record list has no columns, so df[cols_to_keep] raises
KeyError and the run aborts at the column-projection step, before
cleaning, enrichment, aggregation or the average-daily-minutes
computation.  (This says nothing about a nonempty filtered set whose
rows the cleaning filters later drop: such a run passes the
projection and proceeds on an empty frame.) -/
theorem c5_empty_filter_aborts (data : List RawRecord)
    (h : filterYear 2025 data = Except.ok []) :
    enrichedOf (some data) = Except.error (PipeError.keyError colsToKeep) := by
  rw [enrichedOf_some, h]
  rfl

/-- C5 (witness): the empty source has an empty filtered set and
aborts at the projection. -/
theorem c5_witness :
    enrichedOf (some []) = Except.error (PipeError.keyError colsToKeep) :=
  c5_empty_filter_aborts [] (by decide)

/-- C10.  If some retained column is carried by no record of the
filtered set (including the case of an empty filtered set), the
projection df[cols_to_keep] raises KeyError naming the missing
columns, and the run aborts before cleaning, enrichment, aggregation
or export. -/
theorem c10_missing_column_aborts (data flt : List RawRecord) (c : String)
    (hf : filterYear 2025 data = Except.ok flt) (hc : c ∈ colsToKeep)
    (hm : c ∉ columnsOf flt) :
    enrichedOf (some data) =
      Except.error (PipeError.keyError
        (colsToKeep.filter (fun k => !((columnsOf flt).contains k)))) := by
  have hmem : c ∈ colsToKeep.filter (fun k => !((columnsOf flt).contains k)) := by
    rw [List.mem_filter]
    exact ⟨hc, by simp [hm]⟩
  have hne : (colsToKeep.filter (fun k => !((columnsOf flt).contains k))).isEmpty = false := by
    cases hcase : colsToKeep.filter (fun k => !((columnsOf flt).contains k)) with
    | nil => rw [hcase] at hmem; exact absurd hmem (List.not_mem_nil c)
    | cons a as => rfl
  rw [enrichedOf_some, hf]
  unfold projectCols
  simp only [hne, Bool.false_eq_true, if_false]

/-- C10 (witness): with the skipped key on no record, the projection
aborts the run with a KeyError naming that column. -/
theorem c10_witness :
    enrichedOf (some noSkipScenario) =
      Except.error (PipeError.keyError ["skipped"]) := by
  have h := c10_missing_column_aborts noSkipScenario noSkipScenario "skipped"
    (by decide) (by decide) (by decide)
  exact h.trans (by decide)

/-- C8.  For every enriched event set, the Weekly Pattern table comes
out sorted by its explicit weekday index (the day_order column,
Monday = 0 through Sunday = 6, the index of the day name in the
day_order list), not alphabetically, regardless of the order in which
events arrive: the final sort_values on day_order alone fixes the row
order. -/
theorem c8_weekly_order (l : List Enriched) :
    List.Sorted (fun a b => a.day_order ≤ b.day_order) (weeklyPattern l) ∧
      (weeklyPattern l).all
        (fun w => w.day_order == dayOrderList.indexOf w.day_name) = true := by
  constructor
  · haveI : IsTotal WeekRow (fun a b => a.day_order ≤ b.day_order) :=
      ⟨fun a b => Nat.le_total _ _⟩
    haveI : IsTrans WeekRow (fun a b => a.day_order ≤ b.day_order) :=
      ⟨fun _ _ _ hab hbc => Nat.le_trans hab hbc⟩
    exact List.sorted_insertionSort _ _
  · rw [List.all_eq_true]
    intro w hw
    unfold weeklyPattern at hw
    rw [List.mem_insertionSort] at hw
    obtain ⟨k, hk, hwk⟩ := List.mem_map.mp hw
    subst hwk
    simp

/-! Rounding lemmas: numpy round-half-even never moves a value by more
than half a unit in the last rounded place. -/

theorem abs_roundHalfEven_sub (q : Rat) : |(roundHalfEven q : Rat) - q| ≤ 1 / 2 := by
  unfold roundHalfEven
  have h0 : ((⌊q⌋ : Int) : Rat) ≤ q := Int.floor_le q
  have h1 : q < ⌊q⌋ + 1 := Int.lt_floor_add_one q
  split_ifs with hlt hgt hev
  · rw [abs_le]
    constructor <;> linarith
  · rw [abs_le]
    constructor <;> push_cast <;> linarith
  · have he : q - ⌊q⌋ = 1 / 2 := le_antisymm (not_lt.mp hgt) (not_lt.mp hlt)
    rw [abs_le]
    constructor <;> linarith
  · have he : q - ⌊q⌋ = 1 / 2 := le_antisymm (not_lt.mp hgt) (not_lt.mp hlt)
    rw [abs_le]
    constructor <;> push_cast <;> linarith

theorem abs_round2_sub (q : Rat) : |round2 q - q| ≤ 1 / 200 := by
  have h := abs_roundHalfEven_sub (q * 100)
  have heq : round2 q - q = ((roundHalfEven (q * 100) : Rat) - q * 100) / 100 := by
    unfold round2
    ring
  rw [heq, abs_div, abs_of_pos (by norm_num : (0 : Rat) < 100)]
  linarith

theorem sum_round2_close (q : List Rat) :
    |(q.map round2).sum - q.sum| ≤ (q.length : Rat) * (1 / 200) := by
  induction q with
  | nil => simp
  | cons a t ih =>
    simp only [List.map_cons, List.sum_cons, List.length_cons]
    have h := abs_round2_sub a
    calc |round2 a + (t.map round2).sum - (a + t.sum)|
        = |(round2 a - a) + ((t.map round2).sum - t.sum)| := by ring_nf
      _ ≤ |round2 a - a| + |(t.map round2).sum - t.sum| := abs_add _ _
      _ ≤ 1 / 200 + (t.length : Rat) * (1 / 200) := add_le_add h ih
      _ = ((t.length + 1 : Nat) : Rat) * (1 / 200) := by push_cast; ring

/-- The non-NaN platform values, counted: as many as the events whose
platform cell is present. -/
theorem length_filterMap_platform (l : List Enriched) :
    (l.filterMap (fun e => e.platform)).length =
      l.countP (fun e => e.platform.isSome) := by
  induction l with
  | nil => rfl
  | cons e t ih =>
    cases hp : e.platform with
    | none => simp [List.filterMap_cons, hp, List.countP_cons, ih]
    | some v => simp [List.filterMap_cons, hp, List.countP_cons, ih]

/-- With every track name present, a platform group size counted
through track_name equals the multiplicity of the platform value. -/
theorem platCount_eq_count (l : List Enriched)
    (htr : ∀ e ∈ l, notna e.track_name = true) (k : Value) :
    platCount l k = (l.filterMap (fun e => e.platform)).count k := by
  induction l with
  | nil => rfl
  | cons e t ih =>
    have he := htr e (List.mem_cons_self e t)
    have iht := ih (fun x hx => htr x (List.mem_cons_of_mem e hx))
    unfold platCount at iht ⊢
    cases hp : e.platform with
    | none => simp [List.filter_cons, hp, List.filterMap_cons, iht]
    | some v =>
      by_cases hv : v = k
      · subst hv
        simp only [notna] at iht he
        simp [List.filter_cons, hp, List.filterMap_cons, List.count_cons,
          List.countP_cons, iht, he, notna]
      · simp [List.filter_cons, hp, List.filterMap_cons, List.count_cons,
          iht, hv, Ne.symm hv]

/-- Summing the multiplicities of the distinct values of a list gives
its length. -/
theorem sum_count_dedupFirst {α : Type _} [DecidableEq α] (l : List α) :
    ((dedupFirst l).map (fun k => l.count k)).sum = l.length := by
  have hperm : List.Perm (dedupFirst l) l.dedup :=
    (List.perm_ext_iff_of_nodup (nodup_dedupFirst l) l.nodup_dedup).mpr
      (fun a => by rw [mem_dedupFirst, List.mem_dedup])
  rw [(hperm.map (fun k => l.count k)).sum_eq]
  exact List.sum_map_count_dedup_eq_length l

/-- C3 (counterexample).  On a reachable two-event enriched set where
one platform cell is missing, the track_count column of the Platform
Distribution table sums to 1 while the enriched set has 2 events: the
claimed equality with the total event count fails. -/
theorem c3_counterexample :
    (enrichedOf (some platScenario)).map
      (fun es => (sumTrackCount (platformDist es), es.length)) =
      Except.ok (1, 2) := by
  rfl

/-- C3 (amended).  For every enriched event set all of whose events
carry a track name (the Normalizer guarantees this), the track_count
column of the Platform Distribution table sums to the number of events
whose platform is present (events with a missing platform are dropped
by groupby, so the sum can fall short of the total event count), and
when the table is nonempty its percentage column sums to 100 up to
rounding error: within half a unit of the second decimal place per
row. -/
theorem c3_platform_sums (l : List Enriched)
    (htr : ∀ e ∈ l, notna e.track_name = true) :
    sumTrackCount (platformDist l) = l.countP (fun e => e.platform.isSome) ∧
      (platformDist l ≠ [] →
        |((platformDist l).map (fun r => r.percentage)).sum - 100| ≤
          ((platformDist l).length : Rat) * (1 / 200)) := by
  have hperm : List.Perm (platformDist l) ((platKeys l).map (platRowOf l)) :=
    List.perm_insertionSort _ _
  have hcnt : ∀ k, platCount l k = (l.filterMap (fun e => e.platform)).count k :=
    platCount_eq_count l htr
  constructor
  · unfold sumTrackCount
    rw [(hperm.map (fun r => r.track_count)).sum_eq, List.map_map]
    have : ((fun r => r.track_count) ∘ platRowOf l) = fun k => platCount l k := rfl
    rw [this]
    rw [List.map_congr_left (fun k _ => hcnt k)]
    unfold platKeys
    rw [sum_count_dedupFirst]
    exact length_filterMap_platform l
  · intro hne
    have hkeysne : platKeys l ≠ [] := by
      intro h0
      apply hne
      unfold platformDist
      rw [h0]
      rfl
    have htpos : 0 < platTotal l := by
      obtain ⟨k0, hk0⟩ := List.exists_mem_of_ne_nil (platKeys l) hkeysne
      have hk0v : k0 ∈ l.filterMap (fun e => e.platform) := mem_dedupFirst.mp hk0
      have hc0 : 0 < platCount l k0 := by
        rw [hcnt]
        exact List.count_pos_iff.mpr hk0v
      exact lt_of_lt_of_le hc0
        (List.le_sum_of_mem (List.mem_map_of_mem (fun k => platCount l k) hk0))
    have hT : ((platTotal l : Nat) : Rat) ≠ 0 := by
      exact_mod_cast Nat.pos_iff_ne_zero.mp htpos
    rw [(hperm.map (fun r => r.percentage)).sum_eq, hperm.length_eq, List.map_map]
    have hcomp : ((fun r => r.percentage) ∘ platRowOf l) =
        fun k => round2 ((platCount l k : Rat) / (platTotal l : Rat) * 100) := rfl
    rw [hcomp, List.length_map]
    have hmm : ((platKeys l).map
          (fun k => round2 ((platCount l k : Rat) / (platTotal l : Rat) * 100))) =
        ((platKeys l).map
          (fun k => (platCount l k : Rat) / (platTotal l : Rat) * 100)).map round2 := by
      rw [List.map_map]
      rfl
    have hsum : ((platKeys l).map
        (fun k => (platCount l k : Rat) / (platTotal l : Rat) * 100)).sum = 100 := by
      have hstep : ((platKeys l).map
            (fun k => (platCount l k : Rat) / (platTotal l : Rat) * 100)) =
          ((platKeys l).map
            (fun k => (platCount l k : Rat) * (100 / (platTotal l : Rat)))) :=
        List.map_congr_left (fun k _ => by ring)
      rw [hstep, List.sum_map_mul_right]
      have hc2 : ((platKeys l).map (fun k => ((platCount l k : Nat) : Rat))).sum =
          ((platTotal l : Nat) : Rat) := by
        unfold platTotal
        rw [Nat.cast_list_sum, List.map_map]
        rfl
      rw [hc2]
      field_simp
    have hclose := sum_round2_close
      ((platKeys l).map (fun k => (platCount l k : Rat) / (platTotal l : Rat) * 100))
    rw [hmm]
    rw [hsum] at hclose
    rw [List.length_map] at hclose
    exact hclose

/-- C3 (witness): at the one-event enriched set the sum equals the
present-platform count, and the percentages sum exactly to 100. -/
theorem c3_witness :
    sumTrackCount (platformDist [enrSample]) =
        [enrSample].countP (fun e => e.platform.isSome) ∧
      |((platformDist [enrSample]).map (fun r => r.percentage)).sum - 100| ≤
        ((platformDist [enrSample]).length : Rat) * (1 / 200) :=
  ⟨(c3_platform_sums [enrSample] (by decide)).1,
   (c3_platform_sums [enrSample] (by decide)).2
     (List.length_pos.mp (by decide))⟩

/-- Rounding helper: a value within half a unit above an integer
rounds down to it. -/
theorem roundHalfEven_eq_of_lt (q : Rat) (f : Int) (h1 : (f : Rat) ≤ q)
    (h2 : q - f < 1 / 2) : roundHalfEven q = f := by
  have hf : ⌊q⌋ = f := by
    rw [Int.floor_eq_iff]
    exact ⟨h1, by linarith⟩
  unfold roundHalfEven
  rw [hf, if_pos h2]

/-- C9.  Three events dated 2025-01-01 with 3.0, 2.0 and 0.0 minutes
played (180000, 120000 and 0 ms), none skipped, produce a Daily
Summary with the single row total_minutes = 5.0, tracks_played = 3,
skips = 0, completions = 3, skip_rate = 0.0 and hours_played = 0.08
(5 / 60 hours rounded to two decimals). -/
theorem c9_daily_scenario :
    (enrichedOf (some dayScenario)).map dailySummary =
      Except.ok [dayRowExpected] := by
  have h1 : enrichedOf (some dayScenario) = Except.ok dayEnriched := rfl
  rw [h1]
  show Except.ok (dailySummary dayEnriched) = Except.ok [dayRowExpected]
  rw [show dailySummary dayEnriched =
      [{ date := (2025, 1, 1)
         total_minutes := ratSum (dayEnriched.map (fun e => e.minutes_played))
         tracks_played := 3
         skips := 0
         completions := 3
         unique_artists := 1
         skip_rate := round2 (((0 : Int) : Rat) / ((3 : Nat) : Rat) * 100)
         hours_played :=
           round2 (ratSum (dayEnriched.map (fun e => e.minutes_played)) / 60) }]
    from rfl]
  have htm : ratSum (dayEnriched.map (fun e => e.minutes_played)) = 5 := by
    norm_num [ratSum, dayEnriched, enrSample, enrSample2, enrSample3,
      List.filterMap_cons]
  have hsr : round2 (((0 : Int) : Rat) / ((3 : Nat) : Rat) * 100) = 0 := by
    rw [show ((0 : Int) : Rat) / ((3 : Nat) : Rat) * 100 = 0 from by norm_num]
    unfold round2
    rw [show (0 : Rat) * 100 = 0 from by norm_num]
    rw [roundHalfEven_eq_of_lt 0 0 (by norm_num) (by norm_num)]
    norm_num
  have hhp : round2 ((5 : Rat) / 60) = 0.08 := by
    unfold round2
    rw [show (5 : Rat) / 60 * 100 = 25 / 3 from by norm_num]
    rw [roundHalfEven_eq_of_lt (25 / 3) 8 (by norm_num) (by norm_num)]
    norm_num
  rw [htm, hsr, hhp]
  rfl

end SpotifyETL
